import Mathlib

/-!
Verification of the AppiumAutomation test-automation framework.

This file gives a shallow embedding, in Lean 4, of the Python sources under
src/: the configuration loader (src/utils/config_loader.py), the test-data
loader (src/utils/test_data_loader.py), the explicit-wait utilities
(src/utils/wait_utils.py), the Appium facade (src/utils/appium_wrapper.py),
the page-object base class (src/pages/base_page.py) and the pytest `config`
fixture (src/tests/conftest.py).

Modelling conventions:
- Python dictionaries are association lists `List (String × α)` with Python's
  insertion-order semantics: item assignment replaces an existing binding in
  place or appends a fresh one at the end; `dict.update` folds item
  assignment over the second dictionary.
- JSON values are the inductive `JValue`; Python truthiness of such values is
  `JValue.truthy`.
- Fallible Python code returns `Except PyError α`; each Python exception
  class used by the sources is one `PyError` constructor, so distinct
  exception classes are distinguishable by constructor.
- The external Appium/Selenium driver is an abstract `DriverModel σ` over an
  abstract driver-state type `σ`: the library's `WebDriverWait(...).until`
  and `until_not` calls, raw element lookup, element actions, window size and
  the swipe gesture are its fields.  Only the repository's own composition of
  these calls is defined here and proved about.
-/

set_option maxHeartbeats 1000000

/-- The Python exception classes raised by the sources, one constructor per
class, so callers can distinguish failure kinds by constructor. -/
inductive PyError where
  | fileNotFound (msg : String)
  | keyError (msg : String)
  | valueError (msg : String)
  | typeError (msg : String)
  | attributeError (msg : String)
  | timeoutException (msg : String)
  deriving DecidableEq, Repr

namespace Py

variable {α : Type}

/-- Python `d.get(key)` / `key in d` lookup on an insertion-ordered
dictionary: the first binding of the key (Python dictionaries hold at most
one). -/
def lookup : List (String × α) → String → Option α
  | [], _ => none
  | (k, v) :: rest, key => if k = key then some v else Py.lookup rest key

/-- Python `key in d`. -/
def hasKey (d : List (String × α)) (key : String) : Bool :=
  (Py.lookup d key).isSome

/-- Python `d.get(key, default)`. -/
def getD (d : List (String × α)) (key : String) (dflt : α) : α :=
  (Py.lookup d key).getD dflt

/-- Python item assignment `d[key] = v`: replace the first binding of the
key in place, or append a fresh binding at the end. -/
def setKey : List (String × α) → String → α → List (String × α)
  | [], key, v => [(key, v)]
  | (k, w) :: rest, key, v =>
      if k = key then (key, v) :: rest else (k, w) :: Py.setKey rest key v

/-- Python `d1.update(d2)` (also the tail of a `{... , **d2}` display):
item-assign every binding of `d2` into `d1`, in order. -/
def updateD : List (String × α) → List (String × α) → List (String × α)
  | d, [] => d
  | d, (k, v) :: rest => Py.updateD (Py.setKey d k v) rest

/-- The last binding of a key (the one `update` leaves in force when the
source dictionary binds the key several times). -/
def lookupLast (d : List (String × α)) (key : String) : Option α :=
  Py.lookup d.reverse key

end Py

/-- JSON values as parsed by Python's `json.load`. -/
inductive JValue where
  | null
  | bool (b : Bool)
  | num (n : Int)
  | str (s : String)
  | obj (fields : List (String × JValue))
  | arr (elems : List JValue)

/-- Python truthiness of a JSON value (`if x:`): `None`, `False`, `0`, the
empty string and empty containers are falsy. -/
def JValue.truthy : JValue → Bool
  | .null => false
  | .bool b => b
  | .num n => n ≠ 0
  | .str s => s ≠ ""
  | .obj fields => !fields.isEmpty
  | .arr elems => !elems.isEmpty

/-- View a JSON value as a dictionary.  The sources only ever reach the
dictionary operations on values that are JSON objects (well-formed
configuration and data files); a non-object is viewed as the empty
dictionary. -/
def JValue.toDict : JValue → List (String × JValue)
  | .obj fields => fields
  | _ => []

/-- A Python dictionary whose values are JSON values. -/
abbrev PyDict := List (String × JValue)

/-- Python `s.lower()`, character by character. -/
def pyLower (s : String) : String :=
  String.mk (s.data.map Char.toLower)

/-- Python `s.endswith(suffix)`. -/
def pyEndsWith (s suffix : String) : Bool :=
  List.isSuffixOf suffix.data s.data

namespace ConfigLoader

/-- `ConfigLoader.get_all_capabilities` (src/utils/config_loader.py, lines
90–127), written over the three configuration sections and the resolved
platform it reads at lines 92–95.  The base dictionary display ends with
`**caps_config`, then the platform branches assign `automationName`,
conditionally `appPackage`/`appActivity` (Android) or `bundleId` (iOS), and
finally update with the platform capability sub-map from the environment
section. -/
def get_all_capabilities (app_config env_config caps_config : PyDict)
    (platform : String) : PyDict :=
  let capabilities : PyDict :=
    Py.updateD
      [("platformName", JValue.str platform),
       ("platformVersion", Py.getD env_config "platform_version" (JValue.str "")),
       ("deviceName", Py.getD env_config "device_name" (JValue.str "")),
       ("app", Py.getD app_config "app_path" (JValue.str ""))]
      caps_config
  if pyLower platform = "android" then
    let capabilities := Py.setKey capabilities "automationName"
      (Py.getD env_config "automation_name" (JValue.str "UiAutomator2"))
    let capabilities :=
      if (Py.getD app_config "package_name" JValue.null).truthy then
        Py.setKey capabilities "appPackage" (Py.getD app_config "package_name" JValue.null)
      else capabilities
    let capabilities :=
      if (Py.getD app_config "activity_name" JValue.null).truthy then
        Py.setKey capabilities "appActivity" (Py.getD app_config "activity_name" JValue.null)
      else capabilities
    let android_caps := (Py.getD env_config "android_capabilities" (JValue.obj [])).toDict
    Py.updateD capabilities android_caps
  else if pyLower platform = "ios" then
    let capabilities := Py.setKey capabilities "automationName"
      (Py.getD env_config "automation_name" (JValue.str "XCUITest"))
    let capabilities :=
      if (Py.getD app_config "bundle_id" JValue.null).truthy then
        Py.setKey capabilities "bundleId" (Py.getD app_config "bundle_id" JValue.null)
      else capabilities
    let ios_caps := (Py.getD env_config "ios_capabilities" (JValue.obj [])).toDict
    Py.updateD capabilities ios_caps
  else
    capabilities

/-- The parameters of `ConfigLoader.__init__` (src/utils/config_loader.py,
line 10) that a keyword argument may bind: `config_path` and `platform`. -/
def initKeywordParams : List String := ["config_path", "platform"]

/-- The methods defined on `ConfigLoader` (src/utils/config_loader.py). -/
def methodNames : List String :=
  ["__init__", "_load_config", "get_app_config", "get_environment_config",
   "get_capabilities_config", "get_build_number", "get_version",
   "get_environment", "get_platform", "get_all_capabilities",
   "get_server_url"]

end ConfigLoader

/-- Python's call protocol for keyword arguments: a call raises `TypeError`
at the call site when some keyword does not name a parameter of the callee,
before the callee's body runs. -/
def bindCallKwargs (params : List String) (kwargNames : List String) :
    Except PyError Unit :=
  match kwargNames.find? (fun k => !(params.contains k)) with
  | some k => .error (.typeError ("got an unexpected keyword argument " ++ k))
  | none => .ok ()

/-- The session-scoped `config` fixture (src/tests/conftest.py, lines
11–22), as a function of the two environment variables it reads.  It
evaluates `ConfigLoader(platform=platform, device=device)`; since the
keyword binding of that call fails unconditionally, the rest of the fixture
body is unreachable, and is modelled up to its first failure: the dictionary
display's last entry calls `config_loader.get_device()`, an attribute
`ConfigLoader` does not define. -/
def config_fixture (appium_platform appium_device : Option String) :
    Except PyError PyDict :=
  match bindCallKwargs ConfigLoader.initKeywordParams ["platform", "device"] with
  | .error e => .error e
  | .ok _ =>
      if ConfigLoader.methodNames.contains "get_device" then
        .ok []
      else
        .error (.attributeError "ConfigLoader object has no attribute get_device")

/-- Contents of a file in the test-data directory: a JSON object as parsed
by `json.load`, or text whose parse raises `json.JSONDecodeError`. -/
inductive FileContent where
  | valid (data : PyDict)
  | invalid

/-- The on-disk test-data directory: full path → file contents.  A path not
bound is a file that does not exist (`os.path.exists` is false). -/
abbrev FileSystem := List (String × FileContent)

namespace TestDataLoader

/-- The mutable state of a `TestDataLoader` instance
(src/utils/test_data_loader.py, lines 11–24): the data directory and the
per-instance cache `self._cache`, keyed by filename. -/
structure State where
  data_dir : String
  cache : List (String × PyDict)

/-- `TestDataLoader.load_test_data` (src/utils/test_data_loader.py, lines
26–64).  Returns the parsed data, the loader state after the call, and
whether the file was actually read from disk (false exactly on the
cache-hit early return of lines 42–43).  Note the cache test uses the raw
`filename` argument, before the `.json` extension is appended at lines
46–47, while line 60 caches under the extended name. -/
def load_test_data (fs : FileSystem) (ld : State) (filename : String)
    (cache : Bool := true) : Except PyError (PyDict × State × Bool) :=
  match (if cache then Py.lookup ld.cache filename else none) with
  | some data => .ok (data, ld, false)
  | none =>
      let filename := if pyEndsWith filename ".json" then filename
        else filename ++ ".json"
      let filepath := ld.data_dir ++ "/" ++ filename
      match Py.lookup fs filepath with
      | none => .error (.fileNotFound ("Test data file not found: " ++ filepath))
      | some .invalid =>
          .error (.valueError ("Invalid JSON in test data file " ++ filepath))
      | some (.valid data) =>
          .ok (data,
               (if cache then { ld with cache := Py.setKey ld.cache filename data }
                else ld),
               true)

/-- `TestDataLoader.get_test_case_data` (src/utils/test_data_loader.py,
lines 66–88): load the file (with caching), fail with `ValueError` when the
top level has no `test_cases` key, with `KeyError` when the case name is
absent from it, else return the case's mapping.  The two `in` tests at
lines 82 and 85 are reached only on mapping-shaped data in the sources;
`JValue.toDict` views a non-object `test_cases` value as empty. -/
def get_test_case_data (fs : FileSystem) (ld : State) (filename : String)
    (test_case_name : String) : Except PyError (JValue × State × Bool) :=
  match load_test_data fs ld filename true with
  | .error e => .error e
  | .ok (data, ld, didRead) =>
      match Py.lookup data "test_cases" with
      | none =>
          .error (.valueError ("Test data file " ++ filename ++
            " does not contain test_cases key"))
      | some tcs =>
          match Py.lookup tcs.toDict test_case_name with
          | none =>
              .error (.keyError ("Test case " ++ test_case_name ++
                " not found in " ++ filename))
          | some v => .ok (v, ld, didRead)

/-- `TestDataLoader.get_environment_data` (src/utils/test_data_loader.py,
lines 126–152), over the value of the `TEST_ENV` environment variable read
when the `environment` argument is `None`.  Shallow merge: when the named
environment is not `default` and a `default` environment exists, copy the
default environment and update it with the named environment's entries. -/
def get_environment_data (fs : FileSystem) (ld : State) (filename : String)
    (environment : Option String) (test_env_var : Option String) :
    Except PyError (PyDict × State × Bool) :=
  match load_test_data fs ld filename true with
  | .error e => .error e
  | .ok (data, ld, didRead) =>
      let environment := match environment with
        | none => test_env_var.getD "default"
        | some e => e
      let envs := (Py.getD data "environments" (JValue.obj [])).toDict
      let env_data := (Py.getD envs environment (JValue.obj [])).toDict
      if environment ≠ "default" ∧ Py.hasKey envs "default" then
        let default_env := (Py.getD envs "default" (JValue.obj [])).toDict
        .ok (Py.updateD default_env env_data, ld, didRead)
      else
        .ok (env_data, ld, didRead)

/-- `TestDataLoader.clear_cache` (src/utils/test_data_loader.py, lines
154–156). -/
def clear_cache (ld : State) : State :=
  { ld with cache := [] }

/-- `TestDataLoader.merge_data` (src/utils/test_data_loader.py, lines
158–171): copy the base and update with the override, override winning. -/
def merge_data (base_data override_data : PyDict) : PyDict :=
  Py.updateD base_data override_data

end TestDataLoader

/-- A locator: a (strategy, value) pair, passed through verbatim. -/
abbrev Locator := String × String

/-- The conditions the sources pass to the Selenium wait: the
`expected_conditions` constructors used in src/utils/wait_utils.py, a
custom zero-argument predicate (identified abstractly by a number), and
staleness of a previously obtained element handle. -/
inductive WaitCond where
  | presence (loc : Locator)
  | visibility (loc : Locator)
  | clickable (loc : Locator)
  | textIn (loc : Locator) (text : String)
  | custom (cond_id : Nat)
  | staleness (element : Nat)
  deriving DecidableEq, Repr

/-- The external Appium/Selenium driver, abstract over a driver-state type
`σ`.  `wait_until s c t` is the outcome of
`WebDriverWait(driver, t).until(c)` in state `s` (the found element on
success, a raised `TimeoutException` or other driver error on failure);
`wait_until_not` is `until_not`.  Element handles are numbers.  Actions
that mutate the remote UI return the successor state. -/
structure DriverModel (σ : Type) where
  wait_until : σ → WaitCond → Nat → Except PyError Nat
  wait_until_not : σ → WaitCond → Nat → Except PyError Nat
  find_elem : σ → Locator → Except PyError Nat
  elem_text : σ → Nat → String
  elem_clear : σ → Nat → σ
  elem_send_keys : σ → Nat → String → σ
  elem_click : σ → Nat → σ
  window_size : σ → Nat × Nat
  swipe_gesture : σ → Nat → Nat → Nat → Nat → Nat → σ

/-- Python `timeout or self.timeout` (src/utils/wait_utils.py, every wait
method): a falsy per-call timeout — `None` or `0` — is replaced by the
instance default. -/
def pyOrTimeout (timeout : Option Nat) (dflt : Nat) : Nat :=
  match timeout with
  | none => dflt
  | some n => if n = 0 then dflt else n

/-- The `try: ...until...; return True / except TimeoutException: return
False` pattern of every `WaitUtils` method: a timeout is turned into a
`false` return, every other exception propagates. -/
def catchTimeout (r : Except PyError Nat) : Except PyError Bool :=
  match r with
  | .ok _ => .ok true
  | .error (.timeoutException _) => .ok false
  | .error e => .error e

/-- The state of a `WaitUtils` instance (src/utils/wait_utils.py, lines
13–23): the default timeout, 30 seconds unless overridden. -/
structure WaitUtils where
  timeout : Nat := 30

namespace WaitUtils

variable {σ : Type}

/-- `WaitUtils.wait_for_element_present` (src/utils/wait_utils.py,
lines 25–45). -/
def wait_for_element_present (d : DriverModel σ) (s : σ) (wu : WaitUtils)
    (locator : Locator) (timeout : Option Nat := none) : Except PyError Bool :=
  catchTimeout (d.wait_until s (.presence locator) (pyOrTimeout timeout wu.timeout))

/-- `WaitUtils.wait_for_element_visible` (src/utils/wait_utils.py,
lines 47–67). -/
def wait_for_element_visible (d : DriverModel σ) (s : σ) (wu : WaitUtils)
    (locator : Locator) (timeout : Option Nat := none) : Except PyError Bool :=
  catchTimeout (d.wait_until s (.visibility locator) (pyOrTimeout timeout wu.timeout))

/-- `WaitUtils.wait_for_element_clickable` (src/utils/wait_utils.py,
lines 69–89). -/
def wait_for_element_clickable (d : DriverModel σ) (s : σ) (wu : WaitUtils)
    (locator : Locator) (timeout : Option Nat := none) : Except PyError Bool :=
  catchTimeout (d.wait_until s (.clickable locator) (pyOrTimeout timeout wu.timeout))

/-- `WaitUtils.wait_for_element_not_present` (src/utils/wait_utils.py,
lines 91–111). -/
def wait_for_element_not_present (d : DriverModel σ) (s : σ) (wu : WaitUtils)
    (locator : Locator) (timeout : Option Nat := none) : Except PyError Bool :=
  catchTimeout (d.wait_until_not s (.presence locator) (pyOrTimeout timeout wu.timeout))

/-- `WaitUtils.wait_for_element_not_visible` (src/utils/wait_utils.py,
lines 113–133). -/
def wait_for_element_not_visible (d : DriverModel σ) (s : σ) (wu : WaitUtils)
    (locator : Locator) (timeout : Option Nat := none) : Except PyError Bool :=
  catchTimeout (d.wait_until_not s (.visibility locator) (pyOrTimeout timeout wu.timeout))

/-- `WaitUtils.wait_for_text_in_element` (src/utils/wait_utils.py,
lines 135–157). -/
def wait_for_text_in_element (d : DriverModel σ) (s : σ) (wu : WaitUtils)
    (locator : Locator) (text : String) (timeout : Option Nat := none) :
    Except PyError Bool :=
  catchTimeout (d.wait_until s (.textIn locator text) (pyOrTimeout timeout wu.timeout))

/-- `WaitUtils.wait_for_custom_condition` (src/utils/wait_utils.py,
lines 159–181); the condition is identified abstractly, the `message`
argument is unused by the source body. -/
def wait_for_custom_condition (d : DriverModel σ) (s : σ) (wu : WaitUtils)
    (cond_id : Nat) (timeout : Option Nat := none) : Except PyError Bool :=
  catchTimeout (d.wait_until s (.custom cond_id) (pyOrTimeout timeout wu.timeout))

/-- `WaitUtils.wait_for_staleness` (src/utils/wait_utils.py,
lines 183–203). -/
def wait_for_staleness (d : DriverModel σ) (s : σ) (wu : WaitUtils)
    (element : Nat) (timeout : Option Nat := none) : Except PyError Bool :=
  catchTimeout (d.wait_until s (.staleness element) (pyOrTimeout timeout wu.timeout))

end WaitUtils

/-- Render a locator into the f-string messages of
src/utils/appium_wrapper.py. -/
def locToString (loc : Locator) : String :=
  "(" ++ loc.1 ++ ", " ++ loc.2 ++ ")"

namespace AppiumWrapper

variable {σ : Type}

/-- `AppiumWrapper.find_element` (src/utils/appium_wrapper.py, lines
27–54): wait for visibility (or presence), raise `TimeoutException` when
the wait reports failure, else call through to the raw driver lookup. -/
def find_element (d : DriverModel σ) (s : σ) (wu : WaitUtils) (locator : Locator)
    (wait_for_visible : Bool := true) (timeout : Option Nat := none) :
    Except PyError Nat :=
  if wait_for_visible then
    match WaitUtils.wait_for_element_visible d s wu locator timeout with
    | .error e => .error e
    | .ok false => .error (.timeoutException ("Element not visible: " ++ locToString locator))
    | .ok true => d.find_elem s locator
  else
    match WaitUtils.wait_for_element_present d s wu locator timeout with
    | .error e => .error e
    | .ok false => .error (.timeoutException ("Element not present: " ++ locToString locator))
    | .ok true => d.find_elem s locator

/-- `AppiumWrapper.send_keys` (src/utils/appium_wrapper.py, lines 109–125):
wait for visibility (raising on timeout), find the element, optionally
clear it, send the text; returns the driver state after the actions. -/
def send_keys (d : DriverModel σ) (s : σ) (wu : WaitUtils) (locator : Locator)
    (text : String) (clear_first : Bool := true) (timeout : Option Nat := none) :
    Except PyError σ :=
  match WaitUtils.wait_for_element_visible d s wu locator timeout with
  | .error e => .error e
  | .ok false => .error (.timeoutException ("Element not visible: " ++ locToString locator))
  | .ok true =>
      match d.find_elem s locator with
      | .error e => .error e
      | .ok element =>
          let s := if clear_first then d.elem_clear s element else s
          .ok (d.elem_send_keys s element text)

/-- `AppiumWrapper.click` (src/utils/appium_wrapper.py, lines 97–107): a
bare `WebDriverWait(driver, timeout).until(clickable).click()` — a timeout
of the underlying wait propagates as a raised `TimeoutException`. -/
def click (d : DriverModel σ) (s : σ) (locator : Locator) (timeout : Nat := 10) :
    Except PyError σ :=
  match d.wait_until s (.clickable locator) timeout with
  | .error e => .error e
  | .ok element => .ok (d.elem_click s element)

/-- `AppiumWrapper.get_text` (src/utils/appium_wrapper.py, lines 127–139):
`find_element` (raising on timeout) then read the element's text. -/
def get_text (d : DriverModel σ) (s : σ) (wu : WaitUtils) (locator : Locator)
    (timeout : Option Nat := none) : Except PyError String :=
  match find_element d s wu locator true timeout with
  | .error e => .error e
  | .ok element => .ok (d.elem_text s element)

/-- `AppiumWrapper.is_element_present` (src/utils/appium_wrapper.py, lines
141–152); default timeout 5. -/
def is_element_present (d : DriverModel σ) (s : σ) (wu : WaitUtils)
    (locator : Locator) (timeout : Option Nat := some 5) : Except PyError Bool :=
  WaitUtils.wait_for_element_present d s wu locator timeout

/-- `AppiumWrapper.is_element_visible` (src/utils/appium_wrapper.py, lines
154–165); default timeout 5. -/
def is_element_visible (d : DriverModel σ) (s : σ) (wu : WaitUtils)
    (locator : Locator) (timeout : Option Nat := some 5) : Except PyError Bool :=
  WaitUtils.wait_for_element_visible d s wu locator timeout

/-- `AppiumWrapper.is_element_clickable` (src/utils/appium_wrapper.py,
lines 167–178); default timeout 5. -/
def is_element_clickable (d : DriverModel σ) (s : σ) (wu : WaitUtils)
    (locator : Locator) (timeout : Option Nat := some 5) : Except PyError Bool :=
  WaitUtils.wait_for_element_clickable d s wu locator timeout

/-- `AppiumWrapper.swipe` (src/utils/appium_wrapper.py, lines 181–192): a
direct pass-through to the driver's swipe gesture. -/
def swipe (d : DriverModel σ) (s : σ) (start_x start_y end_x end_y : Nat)
    (duration : Nat := 1000) : σ :=
  d.swipe_gesture s start_x start_y end_x end_y duration

/-- One iteration of the miss branch of `scroll_to_element`
(src/utils/appium_wrapper.py, lines 210–221): read the current window
size and perform the directional swipe sized from it (an unrecognized
direction swipes nothing). -/
def scrollStep (d : DriverModel σ) (direction : String) (s : σ) : σ :=
  let size := d.window_size s
  let width := size.1
  let height := size.2
  if direction = "down" then
    swipe d s (width / 2) (height * 3 / 4) (width / 2) (height / 4)
  else if direction = "up" then
    swipe d s (width / 2) (height / 4) (width / 2) (height * 3 / 4)
  else if direction = "left" then
    swipe d s (width * 3 / 4) (height / 2) (width / 4) (height / 2)
  else if direction = "right" then
    swipe d s (width / 4) (height / 2) (width * 3 / 4) (height / 2)
  else s

/-- `AppiumWrapper.scroll_to_element` (src/utils/appium_wrapper.py, lines
194–223): up to `max_swipes` attempts; each attempt checks presence with a
2-second timeout, returns `find_element(locator)` on success, otherwise
swipes once in the requested direction and retries; `None` after
exhausting the attempts. -/
def scroll_to_element (d : DriverModel σ) (s : σ) (wu : WaitUtils)
    (locator : Locator) (direction : String := "down") (max_swipes : Nat := 5) :
    Except PyError (Option Nat × σ) :=
  match max_swipes with
  | 0 => .ok (none, s)
  | n + 1 =>
      match is_element_present d s wu locator (some 2) with
      | .error e => .error e
      | .ok true =>
          match find_element d s wu locator with
          | .error e => .error e
          | .ok element => .ok (some element, s)
      | .ok false =>
          scroll_to_element d (scrollStep d direction s) wu locator direction n

end AppiumWrapper

/-- A constructed page object (src/pages/base_page.py): it owns a
`WaitUtils` built over the shared driver and the subtype's abstract
`is_page_loaded` predicate (identified as a custom wait condition). -/
structure BasePage where
  wait_utils : WaitUtils
  is_page_loaded_cond : Nat

namespace BasePage

variable {σ : Type}

/-- `BasePage.wait_for_page_load` (src/pages/base_page.py, lines 39–53):
`wait_for_custom_condition(self.is_page_loaded, timeout=timeout, ...)`,
returning the poller's boolean. -/
def wait_for_page_load (d : DriverModel σ) (s : σ) (page : BasePage)
    (timeout : Nat := 30) : Except PyError Bool :=
  WaitUtils.wait_for_custom_condition d s page.wait_utils
    page.is_page_loaded_cond (some timeout)

/-- `BasePage.__init__` (src/pages/base_page.py, lines 11–26): build the
helpers, then, when `wait_for_load` is set, call `wait_for_page_load` —
whose boolean result the constructor does not inspect — and return the
page object.  An exception raised inside the wait propagates. -/
def init (d : DriverModel σ) (s : σ) (is_page_loaded_cond : Nat)
    (wait_for_load : Bool := true) (timeout : Nat := 30) :
    Except PyError BasePage :=
  let wait_utils : WaitUtils := {}
  let page : BasePage :=
    { wait_utils := wait_utils, is_page_loaded_cond := is_page_loaded_cond }
  if wait_for_load then
    match wait_for_page_load d s page timeout with
    | .error e => .error e
    | .ok _loaded => .ok page
  else
    .ok page

end BasePage

/-- A driver in which every wait times out: the element (or condition)
named never becomes available within any deadline. -/
def timeoutDriver : DriverModel Unit where
  wait_until := fun _ _ _ => .error (.timeoutException "timed out")
  wait_until_not := fun _ _ _ => .error (.timeoutException "timed out")
  find_elem := fun _ _ => .ok 0
  elem_text := fun _ _ => ""
  elem_clear := fun s _ => s
  elem_send_keys := fun s _ _ => s
  elem_click := fun s _ => s
  window_size := fun _ => (1080, 1920)
  swipe_gesture := fun s _ _ _ _ _ => s

/-- A driver in which every wait succeeds at once with element handle 1. -/
def presentDriver : DriverModel Unit where
  wait_until := fun _ _ _ => .ok 1
  wait_until_not := fun _ _ _ => .ok 1
  find_elem := fun _ _ => .ok 1
  elem_text := fun _ _ => "Welcome"
  elem_clear := fun s _ => s
  elem_send_keys := fun s _ _ => s
  elem_click := fun s _ => s
  window_size := fun _ => (1080, 1920)
  swipe_gesture := fun s _ _ _ _ _ => s

/-! ## Dictionary lemmas -/

namespace Py

variable {α : Type}

theorem lookup_append (l1 l2 : List (String × α)) (key : String) :
    Py.lookup (l1 ++ l2) key = (Py.lookup l1 key).orElse (fun _ => Py.lookup l2 key) := by
  induction l1 with
  | nil => simp [Py.lookup]
  | cons p rest ih =>
      cases p with
      | mk k v =>
          by_cases h : k = key
          · simp [Py.lookup, h, Option.orElse]
          · simp [Py.lookup, h, ih]

theorem lookup_setKey_self (d : List (String × α)) (key : String) (v : α) :
    Py.lookup (Py.setKey d key v) key = some v := by
  induction d with
  | nil => simp [Py.setKey, Py.lookup]
  | cons p rest ih =>
      cases p with
      | mk k w =>
          by_cases h : k = key
          · simp [Py.setKey, h, Py.lookup]
          · simp [Py.setKey, h, Py.lookup, ih]

theorem lookup_setKey_ne (d : List (String × α)) (key key' : String) (v : α)
    (h : key' ≠ key) :
    Py.lookup (Py.setKey d key v) key' = Py.lookup d key' := by
  induction d with
  | nil => simp [Py.setKey, Py.lookup, Ne.symm h]
  | cons p rest ih =>
      cases p with
      | mk k w =>
          by_cases hk : k = key
          · subst hk
            simp [Py.setKey, Py.lookup, Ne.symm h]
          · simp only [Py.setKey, if_neg hk]
            by_cases hk2 : k = key'
            · simp [Py.lookup, hk2]
            · simp [Py.lookup, hk2, ih]

theorem lookup_updateD (d1 d2 : List (String × α)) (key : String) :
    Py.lookup (Py.updateD d1 d2) key =
      (Py.lookupLast d2 key).orElse (fun _ => Py.lookup d1 key) := by
  induction d2 generalizing d1 with
  | nil => simp [Py.updateD, Py.lookupLast, Py.lookup, Option.orElse]
  | cons p rest ih =>
      cases p with
      | mk k v =>
          have hlast : Py.lookupLast ((k, v) :: rest) key =
              (Py.lookupLast rest key).orElse
                (fun _ => if k = key then some v else none) := by
            simp only [Py.lookupLast, List.reverse_cons]
            rw [Py.lookup_append]
            simp [Py.lookup]
          rw [Py.updateD, ih, hlast]
          cases hrest : Py.lookupLast rest key with
          | some w => simp [Option.orElse]
          | none =>
              by_cases hk : k = key
              · subst hk
                simp [Option.orElse, Py.lookup_setKey_self]
              · simp [Option.orElse, hk,
                  Py.lookup_setKey_ne d1 k key v (fun h2 => hk h2.symm)]

theorem lookup_eq_none_of_not_mem (d : List (String × α)) (key : String)
    (h : key ∉ d.map Prod.fst) : Py.lookup d key = none := by
  induction d with
  | nil => rfl
  | cons p rest ih =>
      cases p with
      | mk k v =>
          simp only [List.map_cons, List.mem_cons, not_or] at h
          simp [Py.lookup, Ne.symm h.1, ih h.2]

theorem lookupLast_eq_none_of_not_mem (d : List (String × α)) (key : String)
    (h : key ∉ d.map Prod.fst) : Py.lookupLast d key = none := by
  apply Py.lookup_eq_none_of_not_mem
  simpa using h

theorem lookup_ite_setKey (c : Prop) [Decidable c]
    (d : List (String × α)) (k key : String) (v : α) (h : key ≠ k) :
    Py.lookup (if c then Py.setKey d k v else d) key = Py.lookup d key := by
  by_cases hc : c <;> simp [hc, Py.lookup_setKey_ne _ _ _ _ h]

end Py

theorem string_ne_append_json (filename : String) : filename ≠ filename ++ ".json" := by
  intro h
  have h2 := congrArg String.length h
  rw [String.length_append] at h2
  have h5 : (".json" : String).length = 5 := by decide
  omega

/-- Looking the same file up a second time: when the first
`load_test_data` call (with caching) succeeded, a second call on the
resulting loader state returns the same parsed data; when the filename was
given with the `.json` extension the second call is a pure cache hit (no
file read, state unchanged), while without the extension the cache test on
the raw name misses and the file is read again. -/
theorem load_test_data_again (fs : FileSystem) (ld : TestDataLoader.State)
    (filename : String) (data : PyDict) (ld1 : TestDataLoader.State) (b1 : Bool)
    (h : TestDataLoader.load_test_data fs ld filename true = .ok (data, ld1, b1)) :
    (∃ ld2 b2, TestDataLoader.load_test_data fs ld1 filename true = .ok (data, ld2, b2))
    ∧ (pyEndsWith filename ".json" = true →
       TestDataLoader.load_test_data fs ld1 filename true = .ok (data, ld1, false)) := by
  unfold TestDataLoader.load_test_data at h ⊢
  simp only [if_true] at h ⊢
  cases hc : Py.lookup ld.cache filename with
  | some d0 =>
      rw [hc] at h
      simp only [Except.ok.injEq, Prod.mk.injEq] at h
      obtain ⟨rfl, rfl, rfl⟩ := h
      rw [hc]
      exact ⟨⟨ld, false, rfl⟩, fun _ => rfl⟩
  | none =>
      rw [hc] at h
      simp only at h
      by_cases he : pyEndsWith filename ".json" = true
      · rw [if_pos he] at h ⊢
        cases hfs : Py.lookup fs (ld.data_dir ++ "/" ++ filename) with
        | none => rw [hfs] at h; cases h
        | some fc =>
            cases fc with
            | invalid => rw [hfs] at h; cases h
            | valid d0 =>
                rw [hfs] at h
                simp only [if_true, Except.ok.injEq, Prod.mk.injEq] at h
                obtain ⟨rfl, hld, rfl⟩ := h
                have hcache1 : Py.lookup ld1.cache filename = some d0 := by
                  rw [← hld]
                  exact Py.lookup_setKey_self ld.cache filename d0
                rw [hcache1]
                exact ⟨⟨ld1, false, rfl⟩, fun _ => rfl⟩
      · rw [if_neg he] at h ⊢
        cases hfs : Py.lookup fs (ld.data_dir ++ "/" ++ (filename ++ ".json")) with
        | none => rw [hfs] at h; cases h
        | some fc =>
            cases fc with
            | invalid => rw [hfs] at h; cases h
            | valid d0 =>
                rw [hfs] at h
                simp only [if_true, Except.ok.injEq, Prod.mk.injEq] at h
                obtain ⟨rfl, hld, rfl⟩ := h
                have hcache1 : Py.lookup ld1.cache filename = none := by
                  rw [← hld]
                  simp only
                  rw [Py.lookup_setKey_ne ld.cache (filename ++ ".json") filename d0
                    (string_ne_append_json filename)]
                  exact hc
                rw [hcache1]
                have hdir : ld1.data_dir = ld.data_dir := by rw [← hld]
                rw [hdir, hfs]
                exact ⟨⟨⟨ld.data_dir, Py.setKey ld1.cache (filename ++ ".json") d0⟩,
                  true, rfl⟩, fun habs => absurd habs he⟩

/-- Exhaustion case of the scroll loop: when the presence check fails on
the state reached after each of the first `max_swipes` swipes, the loop
performs exactly `max_swipes` swipes and returns `none`. -/
theorem scroll_to_element_not_found {σ : Type} (d : DriverModel σ) (wu : WaitUtils)
    (loc : Locator) (direction : String) :
    ∀ (max_swipes : Nat) (s : σ),
      (∀ k, k < max_swipes →
        AppiumWrapper.is_element_present d ((AppiumWrapper.scrollStep d direction)^[k] s)
          wu loc (some 2) = .ok false) →
      AppiumWrapper.scroll_to_element d s wu loc direction max_swipes
        = .ok (none, (AppiumWrapper.scrollStep d direction)^[max_swipes] s) := by
  intro max_swipes
  induction max_swipes with
  | zero => intro s _; simp [AppiumWrapper.scroll_to_element]
  | succ n ih =>
      intro s h
      have h0 := h 0 (Nat.succ_pos n)
      rw [Function.iterate_zero_apply] at h0
      have hrec := ih (AppiumWrapper.scrollStep d direction s) (fun k hk => by
        have h2 := h (k + 1) (Nat.succ_lt_succ hk)
        rwa [Function.iterate_succ_apply] at h2)
      rw [AppiumWrapper.scroll_to_element, h0]
      simp only []
      rw [hrec, ← Function.iterate_succ_apply]

/-- Success case of the scroll loop: when the presence check first
succeeds on the state reached after `i` swipes (with `i` within the
attempt budget), the loop stops there and returns what `find_element`
returns on that state. -/
theorem scroll_to_element_found {σ : Type} (d : DriverModel σ) (wu : WaitUtils)
    (loc : Locator) (direction : String) :
    ∀ (i max_swipes : Nat) (s : σ) (element : Nat),
      i < max_swipes →
      (∀ k, k < i →
        AppiumWrapper.is_element_present d ((AppiumWrapper.scrollStep d direction)^[k] s)
          wu loc (some 2) = .ok false) →
      AppiumWrapper.is_element_present d ((AppiumWrapper.scrollStep d direction)^[i] s)
        wu loc (some 2) = .ok true →
      AppiumWrapper.find_element d ((AppiumWrapper.scrollStep d direction)^[i] s) wu loc
        = .ok element →
      AppiumWrapper.scroll_to_element d s wu loc direction max_swipes
        = .ok (some element, (AppiumWrapper.scrollStep d direction)^[i] s) := by
  intro i
  induction i with
  | zero =>
      intro max_swipes s element hlt _ hpres hfind
      obtain ⟨m, rfl⟩ : ∃ m, max_swipes = m + 1 := ⟨max_swipes - 1, by omega⟩
      rw [Function.iterate_zero_apply] at hpres hfind ⊢
      rw [AppiumWrapper.scroll_to_element, hpres]
      simp only []
      rw [hfind]
  | succ n ih =>
      intro max_swipes s element hlt hbefore hpres hfind
      obtain ⟨m, rfl⟩ : ∃ m, max_swipes = m + 1 := ⟨max_swipes - 1, by omega⟩
      have h0 := hbefore 0 (Nat.succ_pos n)
      rw [Function.iterate_zero_apply] at h0
      rw [AppiumWrapper.scroll_to_element, h0]
      simp only []
      have hrec := ih m (AppiumWrapper.scrollStep d direction s) element (by omega)
        (fun k hk => by
          have h2 := hbefore (k + 1) (Nat.succ_lt_succ hk)
          rwa [Function.iterate_succ_apply] at h2)
        (by rw [← Function.iterate_succ_apply]; exact hpres)
        (by rw [← Function.iterate_succ_apply]; exact hfind)
      rw [hrec, ← Function.iterate_succ_apply]

/-! ## Claim theorems -/

/-- C1, counterexample: with a driver whose waits always time out, the
load predicate of the page is never observed true — `wait_for_page_load`
reports `false` — yet `BasePage.init` with `wait_for_load = true` still
returns the constructed page object instead of failing.  This refutes the
claim that a page object is never returned to the caller until its load
predicate has been observed true or construction fails. -/
theorem basePage_init_cex :
    BasePage.init timeoutDriver () 7 true 30 = .ok ⟨{}, 7⟩
    ∧ BasePage.wait_for_page_load timeoutDriver () ⟨{}, 7⟩ 30 = .ok false
    ∧ timeoutDriver.wait_until () (.custom 7) 30
        = .error (.timeoutException "timed out") :=
  ⟨rfl, rfl, rfl⟩

/-- C1, amended: `BasePage.__init__` blocks on the load predicate but
discards the boolean that `wait_for_page_load` returns — whenever the
poll of the load predicate times out, construction nevertheless completes
normally and returns the page object, and the same `wait_for_page_load`
call reports `false`.  No error is raised and no failure is signalled to
the caller. -/
theorem basePage_init_ignores_load_timeout {σ : Type} (d : DriverModel σ) (s : σ)
    (cond_id timeout : Nat) (m : String)
    (h : d.wait_until s (.custom cond_id) (pyOrTimeout (some timeout) 30)
      = .error (.timeoutException m)) :
    BasePage.init d s cond_id true timeout = .ok ⟨{}, cond_id⟩
    ∧ BasePage.wait_for_page_load d s ⟨{}, cond_id⟩ timeout = .ok false := by
  constructor <;>
    simp [BasePage.init, BasePage.wait_for_page_load,
      WaitUtils.wait_for_custom_condition, catchTimeout, h]

/-- C1, witness for the amended theorem at the always-timing-out driver. -/
theorem basePage_init_ignores_load_timeout_witness :
    BasePage.init timeoutDriver () 9 true 30 = .ok ⟨{}, 9⟩
    ∧ BasePage.wait_for_page_load timeoutDriver () ⟨{}, 9⟩ 30 = .ok false :=
  basePage_init_ignores_load_timeout timeoutDriver () 9 30 "timed out" rfl

/-- C2, counterexample: a configuration whose raw capabilities section
sets `automationName` to `Espresso` while the derived Android default is
`UiAutomator2`.  The returned capability set carries `UiAutomator2`: the
platform-specific assignment runs after the `**caps_config` spread, so the
programmatically derived value, not the JSON capabilities value, wins on
this key.  This refutes the claim that the capabilities section always
takes precedence. -/
theorem capability_override_cex :
    Py.lookup
      (ConfigLoader.get_all_capabilities [] []
        [("automationName", JValue.str "Espresso")] "Android") "automationName"
      = some (JValue.str "UiAutomator2")
    ∧ (some (JValue.str "UiAutomator2") : Option JValue)
        ≠ some (JValue.str "Espresso") := by
  constructor
  · rfl
  · simp

/-- C2, amended: in `get_all_capabilities` the JSON capabilities section
takes precedence over the base-dictionary defaults (`platformName`,
`platformVersion`, `deviceName`, `app`) because the `**caps_config` spread
ends the base display; but the platform-specific keys assigned afterwards
— `automationName`, and on Android `appPackage`/`appActivity` — override
the capabilities section, and the `android_capabilities` sub-map of the
environment section is applied last and overrides everything (the first
conjunct therefore also requires the sub-map not to bind the key). -/
theorem capability_override_order
    (app_config env_config caps_config : PyDict) (key : String) (v : JValue)
    (acaps : List (String × JValue))
    (hacaps : (Py.getD env_config "android_capabilities" (JValue.obj [])).toDict = acaps) :
    ((key = "platformName" ∨ key = "platformVersion" ∨ key = "deviceName" ∨ key = "app") →
     Py.lookupLast caps_config key = some v →
     key ∉ acaps.map Prod.fst →
     Py.lookup (ConfigLoader.get_all_capabilities app_config env_config caps_config
       "Android") key = some v)
    ∧ ("automationName" ∉ acaps.map Prod.fst →
       Py.lookup (ConfigLoader.get_all_capabilities app_config env_config caps_config
           "Android") "automationName"
         = some (Py.getD env_config "automation_name" (JValue.str "UiAutomator2"))) := by
  have hand : pyLower "Android" = "android" := rfl
  constructor
  · intro hkey hv hnot
    have hne1 : key ≠ "automationName" := by
      rcases hkey with rfl | rfl | rfl | rfl <;> decide
    have hne2 : key ≠ "appPackage" := by
      rcases hkey with rfl | rfl | rfl | rfl <;> decide
    have hne3 : key ≠ "appActivity" := by
      rcases hkey with rfl | rfl | rfl | rfl <;> decide
    simp only [ConfigLoader.get_all_capabilities, hand, if_pos, if_true]
    rw [hacaps, Py.lookup_updateD, Py.lookupLast_eq_none_of_not_mem _ _ hnot]
    simp only [Option.orElse]
    rw [Py.lookup_ite_setKey _ _ _ _ _ hne3, Py.lookup_ite_setKey _ _ _ _ _ hne2,
      Py.lookup_setKey_ne _ _ _ _ hne1, Py.lookup_updateD, hv]
    simp [Option.orElse]
  · intro hnot
    simp only [ConfigLoader.get_all_capabilities, hand, if_pos, if_true]
    rw [hacaps, Py.lookup_updateD, Py.lookupLast_eq_none_of_not_mem _ _ hnot]
    simp only [Option.orElse]
    rw [Py.lookup_ite_setKey _ _ _ _ _
        (by decide : ("automationName" : String) ≠ "appActivity"),
      Py.lookup_ite_setKey _ _ _ _ _
        (by decide : ("automationName" : String) ≠ "appPackage"),
      Py.lookup_setKey_self]

/-- C2, witness for the amended theorem: a capabilities section binding
`deviceName` wins over the base default, and `automationName` resolves to
the derived default. -/
theorem capability_override_order_witness :
    Py.lookup (ConfigLoader.get_all_capabilities [] []
        [("deviceName", JValue.str "Pixel 7")] "Android") "deviceName"
      = some (JValue.str "Pixel 7")
    ∧ Py.lookup (ConfigLoader.get_all_capabilities [] []
        [("deviceName", JValue.str "Pixel 7")] "Android") "automationName"
        = some (Py.getD [] "automation_name" (JValue.str "UiAutomator2")) :=
  ⟨(capability_override_order [] [] [("deviceName", JValue.str "Pixel 7")] "deviceName"
      (JValue.str "Pixel 7") [] rfl).1 (by simp) rfl (by simp),
   (capability_override_order [] [] [("deviceName", JValue.str "Pixel 7")] "deviceName"
      (JValue.str "Pixel 7") [] rfl).2 (by simp)⟩

/-- C3: looking up test-case data for a file that does not exist fails at
load time with the file-not-found kind (`load_test_data` itself raises
`FileNotFoundError`, and `get_test_case_data` propagates it), while
looking up a case name absent from an existing well-formed file fails at
lookup time with the key-not-found kind (`KeyError`); the two kinds are
distinguishable constructors of `PyError`. -/
theorem test_data_failure_kinds (fs : FileSystem) (ld : TestDataLoader.State)
    (filename case_name : String) :
    (Py.lookup ld.cache filename = none →
     Py.lookup fs (ld.data_dir ++ "/" ++
       (if pyEndsWith filename ".json" then filename else filename ++ ".json")) = none →
     (∃ m, TestDataLoader.load_test_data fs ld filename true = .error (.fileNotFound m))
     ∧ (∃ m, TestDataLoader.get_test_case_data fs ld filename case_name
          = .error (.fileNotFound m)))
    ∧ (∀ data ld1 b tcs,
        TestDataLoader.load_test_data fs ld filename true = .ok (data, ld1, b) →
        Py.lookup data "test_cases" = some (.obj tcs) →
        Py.lookup tcs case_name = none →
        ∃ m, TestDataLoader.get_test_case_data fs ld filename case_name
          = .error (.keyError m))
    ∧ (∀ m m', PyError.fileNotFound m ≠ PyError.keyError m') := by
  refine ⟨?_, ?_, fun m m' h => PyError.noConfusion h⟩
  · intro hc hfs
    have hload : TestDataLoader.load_test_data fs ld filename true
        = .error (.fileNotFound ("Test data file not found: " ++ (ld.data_dir ++ "/" ++
          (if pyEndsWith filename ".json" then filename else filename ++ ".json")))) := by
      simp [TestDataLoader.load_test_data, hc, hfs]
    refine ⟨⟨"Test data file not found: " ++ (ld.data_dir ++ "/" ++
      (if pyEndsWith filename ".json" then filename else filename ++ ".json")), hload⟩,
      ⟨"Test data file not found: " ++ (ld.data_dir ++ "/" ++
      (if pyEndsWith filename ".json" then filename else filename ++ ".json")), ?_⟩⟩
    simp [TestDataLoader.get_test_case_data, hload]
  · intro data ld1 b tcs hload htc hnone
    refine ⟨"Test case " ++ case_name ++ " not found in " ++ filename, ?_⟩
    simp [TestDataLoader.get_test_case_data, hload, htc, JValue.toDict, hnone]

/-- C3, witness: a one-file filesystem; a lookup of a missing file fails
with the file-not-found kind, a lookup of a missing case in the existing
file fails with the key-not-found kind, and the two kinds differ. -/
theorem test_data_failure_kinds_witness :
    (∃ m, TestDataLoader.load_test_data
      [("data/login_test_data.json", FileContent.valid
         [("test_cases", JValue.obj [("valid_login", JValue.obj [])])])]
      ⟨"data", []⟩ "nosuch" true = .error (.fileNotFound m))
    ∧ (∃ m, TestDataLoader.get_test_case_data
      [("data/login_test_data.json", FileContent.valid
         [("test_cases", JValue.obj [("valid_login", JValue.obj [])])])]
      ⟨"data", []⟩ "nosuch" "valid_login" = .error (.fileNotFound m))
    ∧ (∃ m, TestDataLoader.get_test_case_data
      [("data/login_test_data.json", FileContent.valid
         [("test_cases", JValue.obj [("valid_login", JValue.obj [])])])]
      ⟨"data", []⟩ "login_test_data" "absent_case" = .error (.keyError m))
    ∧ PyError.fileNotFound "f" ≠ PyError.keyError "f" :=
  ⟨((test_data_failure_kinds
      [("data/login_test_data.json", FileContent.valid
         [("test_cases", JValue.obj [("valid_login", JValue.obj [])])])]
      ⟨"data", []⟩ "nosuch" "valid_login").1 rfl rfl).1,
   ((test_data_failure_kinds
      [("data/login_test_data.json", FileContent.valid
         [("test_cases", JValue.obj [("valid_login", JValue.obj [])])])]
      ⟨"data", []⟩ "nosuch" "valid_login").1 rfl rfl).2,
   (test_data_failure_kinds
      [("data/login_test_data.json", FileContent.valid
         [("test_cases", JValue.obj [("valid_login", JValue.obj [])])])]
      ⟨"data", []⟩ "login_test_data" "absent_case").2.1
      [("test_cases", JValue.obj [("valid_login", JValue.obj [])])]
      ⟨"data", [("login_test_data.json",
         [("test_cases", JValue.obj [("valid_login", JValue.obj [])])])]⟩ true
      [("valid_login", JValue.obj [])] rfl rfl rfl,
   (test_data_failure_kinds
      [("data/login_test_data.json", FileContent.valid
         [("test_cases", JValue.obj [("valid_login", JValue.obj [])])])]
      ⟨"data", []⟩ "login_test_data" "absent_case").2.2 "f" "f"⟩

/-- C4: every boolean wait method of `WaitUtils` and every `is_element_*`
method of `AppiumWrapper` returns `false` — and does not raise — when the
underlying wait times out, while the facade action methods
(`find_element`, `send_keys`, `click`, `get_text`) raise a
`TimeoutException` in the same situation. -/
theorem predicates_return_false_actions_raise {σ : Type} (d : DriverModel σ) (s : σ)
    (wu : WaitUtils) (loc : Locator) (text : String) (cond_id element : Nat)
    (timeout : Option Nat) (click_timeout : Nat) (m1 m2 m3 m4 m5 m6 m7 m8 m9 : String)
    (hp : d.wait_until s (.presence loc) (pyOrTimeout timeout wu.timeout)
      = .error (.timeoutException m1))
    (hv : d.wait_until s (.visibility loc) (pyOrTimeout timeout wu.timeout)
      = .error (.timeoutException m2))
    (hcl : d.wait_until s (.clickable loc) (pyOrTimeout timeout wu.timeout)
      = .error (.timeoutException m3))
    (hnp : d.wait_until_not s (.presence loc) (pyOrTimeout timeout wu.timeout)
      = .error (.timeoutException m4))
    (hnv : d.wait_until_not s (.visibility loc) (pyOrTimeout timeout wu.timeout)
      = .error (.timeoutException m5))
    (ht : d.wait_until s (.textIn loc text) (pyOrTimeout timeout wu.timeout)
      = .error (.timeoutException m6))
    (hcu : d.wait_until s (.custom cond_id) (pyOrTimeout timeout wu.timeout)
      = .error (.timeoutException m7))
    (hst : d.wait_until s (.staleness element) (pyOrTimeout timeout wu.timeout)
      = .error (.timeoutException m8))
    (hck : d.wait_until s (.clickable loc) click_timeout = .error (.timeoutException m9)) :
    WaitUtils.wait_for_element_present d s wu loc timeout = .ok false
    ∧ WaitUtils.wait_for_element_visible d s wu loc timeout = .ok false
    ∧ WaitUtils.wait_for_element_clickable d s wu loc timeout = .ok false
    ∧ WaitUtils.wait_for_element_not_present d s wu loc timeout = .ok false
    ∧ WaitUtils.wait_for_element_not_visible d s wu loc timeout = .ok false
    ∧ WaitUtils.wait_for_text_in_element d s wu loc text timeout = .ok false
    ∧ WaitUtils.wait_for_custom_condition d s wu cond_id timeout = .ok false
    ∧ WaitUtils.wait_for_staleness d s wu element timeout = .ok false
    ∧ AppiumWrapper.is_element_present d s wu loc timeout = .ok false
    ∧ AppiumWrapper.is_element_visible d s wu loc timeout = .ok false
    ∧ AppiumWrapper.is_element_clickable d s wu loc timeout = .ok false
    ∧ AppiumWrapper.find_element d s wu loc true timeout
        = .error (.timeoutException ("Element not visible: " ++ locToString loc))
    ∧ AppiumWrapper.find_element d s wu loc false timeout
        = .error (.timeoutException ("Element not present: " ++ locToString loc))
    ∧ AppiumWrapper.send_keys d s wu loc text true timeout
        = .error (.timeoutException ("Element not visible: " ++ locToString loc))
    ∧ AppiumWrapper.click d s loc click_timeout = .error (.timeoutException m9)
    ∧ AppiumWrapper.get_text d s wu loc timeout
        = .error (.timeoutException ("Element not visible: " ++ locToString loc)) := by
  refine ⟨?_, ?_, ?_, ?_, ?_, ?_, ?_, ?_, ?_, ?_, ?_, ?_, ?_, ?_, ?_, ?_⟩
  · simp [WaitUtils.wait_for_element_present, catchTimeout, hp]
  · simp [WaitUtils.wait_for_element_visible, catchTimeout, hv]
  · simp [WaitUtils.wait_for_element_clickable, catchTimeout, hcl]
  · simp [WaitUtils.wait_for_element_not_present, catchTimeout, hnp]
  · simp [WaitUtils.wait_for_element_not_visible, catchTimeout, hnv]
  · simp [WaitUtils.wait_for_text_in_element, catchTimeout, ht]
  · simp [WaitUtils.wait_for_custom_condition, catchTimeout, hcu]
  · simp [WaitUtils.wait_for_staleness, catchTimeout, hst]
  · simp [AppiumWrapper.is_element_present, WaitUtils.wait_for_element_present,
      catchTimeout, hp]
  · simp [AppiumWrapper.is_element_visible, WaitUtils.wait_for_element_visible,
      catchTimeout, hv]
  · simp [AppiumWrapper.is_element_clickable, WaitUtils.wait_for_element_clickable,
      catchTimeout, hcl]
  · simp [AppiumWrapper.find_element, WaitUtils.wait_for_element_visible,
      catchTimeout, hv]
  · simp [AppiumWrapper.find_element, WaitUtils.wait_for_element_present,
      catchTimeout, hp]
  · simp [AppiumWrapper.send_keys, WaitUtils.wait_for_element_visible,
      catchTimeout, hv]
  · simp [AppiumWrapper.click, hck]
  · simp [AppiumWrapper.get_text, AppiumWrapper.find_element,
      WaitUtils.wait_for_element_visible, catchTimeout, hv]

/-- C4, witness at the always-timing-out driver: all predicates report
`false`, all actions report a raised `TimeoutException`. -/
theorem predicates_return_false_actions_raise_witness :
    WaitUtils.wait_for_element_present timeoutDriver () {} ("id", "login") none = .ok false
    ∧ WaitUtils.wait_for_element_visible timeoutDriver () {} ("id", "login") none = .ok false
    ∧ WaitUtils.wait_for_element_clickable timeoutDriver () {} ("id", "login") none
        = .ok false
    ∧ WaitUtils.wait_for_element_not_present timeoutDriver () {} ("id", "login") none
        = .ok false
    ∧ WaitUtils.wait_for_element_not_visible timeoutDriver () {} ("id", "login") none
        = .ok false
    ∧ WaitUtils.wait_for_text_in_element timeoutDriver () {} ("id", "login") "hi" none
        = .ok false
    ∧ WaitUtils.wait_for_custom_condition timeoutDriver () {} 0 none = .ok false
    ∧ WaitUtils.wait_for_staleness timeoutDriver () {} 3 none = .ok false
    ∧ AppiumWrapper.is_element_present timeoutDriver () {} ("id", "login") none = .ok false
    ∧ AppiumWrapper.is_element_visible timeoutDriver () {} ("id", "login") none = .ok false
    ∧ AppiumWrapper.is_element_clickable timeoutDriver () {} ("id", "login") none
        = .ok false
    ∧ AppiumWrapper.find_element timeoutDriver () {} ("id", "login") true none
        = .error (.timeoutException ("Element not visible: " ++ locToString ("id", "login")))
    ∧ AppiumWrapper.find_element timeoutDriver () {} ("id", "login") false none
        = .error (.timeoutException ("Element not present: " ++ locToString ("id", "login")))
    ∧ AppiumWrapper.send_keys timeoutDriver () {} ("id", "login") "hi" true none
        = .error (.timeoutException ("Element not visible: " ++ locToString ("id", "login")))
    ∧ AppiumWrapper.click timeoutDriver () ("id", "login") 10
        = .error (.timeoutException "timed out")
    ∧ AppiumWrapper.get_text timeoutDriver () {} ("id", "login") none
        = .error (.timeoutException ("Element not visible: " ++ locToString ("id", "login"))) :=
  predicates_return_false_actions_raise timeoutDriver () {} ("id", "login") "hi" 0 3 none 10
    "timed out" "timed out" "timed out" "timed out" "timed out" "timed out" "timed out"
    "timed out" "timed out" rfl rfl rfl rfl rfl rfl rfl rfl rfl

/-- C5, counterexample: the cache test in `load_test_data` uses the raw
filename before the `.json` extension is appended, but caching stores
under the extended name.  With the filename given without the extension,
the second lookup of the same (file, case) therefore misses the cache and
reads the file again: its read flag is `true`, refuting the claim that no
re-read happens in that case (the returned mapping is still equal). -/
theorem cache_lookup_cex :
    TestDataLoader.get_test_case_data
      [("data/login_test_data.json", FileContent.valid
         [("test_cases", JValue.obj
            [("valid_login", JValue.obj [("username", JValue.str "standard_user")])])])]
      ⟨"data", []⟩ "login_test_data" "valid_login"
      = .ok (JValue.obj [("username", JValue.str "standard_user")],
          ⟨"data", [("login_test_data.json",
            [("test_cases", JValue.obj
               [("valid_login", JValue.obj [("username", JValue.str "standard_user")])])])]⟩,
          true)
    ∧ TestDataLoader.get_test_case_data
      [("data/login_test_data.json", FileContent.valid
         [("test_cases", JValue.obj
            [("valid_login", JValue.obj [("username", JValue.str "standard_user")])])])]
      ⟨"data", [("login_test_data.json",
         [("test_cases", JValue.obj
            [("valid_login", JValue.obj [("username", JValue.str "standard_user")])])])]⟩
      "login_test_data" "valid_login"
      = .ok (JValue.obj [("username", JValue.str "standard_user")],
          ⟨"data", [("login_test_data.json",
            [("test_cases", JValue.obj
               [("valid_login", JValue.obj [("username", JValue.str "standard_user")])])])]⟩,
          true) :=
  ⟨rfl, rfl⟩

/-- C5, amended: after a first successful lookup of (file, case), a
second lookup without an intervening cache clear returns an equal mapping;
when the filename is given with the `.json` extension the second lookup is
served from the cache with no file read and unchanged loader state, while
without the extension the cache test on the raw name misses and the file
is read again (the mapping returned is still equal, the filesystem being
unchanged). -/
theorem cache_stability_amended (fs : FileSystem) (ld : TestDataLoader.State)
    (filename case_name : String) (v : JValue) (ld1 : TestDataLoader.State) (b1 : Bool)
    (h1 : TestDataLoader.get_test_case_data fs ld filename case_name = .ok (v, ld1, b1)) :
    (∃ ld2 b2, TestDataLoader.get_test_case_data fs ld1 filename case_name
      = .ok (v, ld2, b2))
    ∧ (pyEndsWith filename ".json" = true →
       TestDataLoader.get_test_case_data fs ld1 filename case_name = .ok (v, ld1, false)) := by
  unfold TestDataLoader.get_test_case_data at h1 ⊢
  cases hload : TestDataLoader.load_test_data fs ld filename true with
  | error e => rw [hload] at h1; cases h1
  | ok tri =>
      obtain ⟨data, ldx, bx⟩ := tri
      rw [hload] at h1
      simp only at h1
      cases htc : Py.lookup data "test_cases" with
      | none => rw [htc] at h1; cases h1
      | some tcs =>
          rw [htc] at h1
          simp only at h1
          cases hcase : Py.lookup tcs.toDict case_name with
          | none => rw [hcase] at h1; cases h1
          | some v0 =>
              rw [hcase] at h1
              simp only [Except.ok.injEq, Prod.mk.injEq] at h1
              obtain ⟨rfl, rfl, rfl⟩ := h1
              obtain ⟨⟨ld2, b2, hload2⟩, hjson⟩ :=
                load_test_data_again fs ld filename data _ _ hload
              constructor
              · refine ⟨ld2, b2, ?_⟩
                rw [hload2]
                simp only [htc, hcase]
              · intro he
                rw [hjson he]
                simp only [htc, hcase]

/-- C5, witness for the amended theorem: with the extension present, the
second lookup is a cache hit with no file read. -/
theorem cache_stability_amended_witness :
    (∃ ld2 b2, TestDataLoader.get_test_case_data
      [("data/login_test_data.json", FileContent.valid
         [("test_cases", JValue.obj
            [("valid_login", JValue.obj [("username", JValue.str "standard_user")])])])]
      ⟨"data", [("login_test_data.json",
         [("test_cases", JValue.obj
            [("valid_login", JValue.obj [("username", JValue.str "standard_user")])])])]⟩
      "login_test_data.json" "valid_login"
      = .ok (JValue.obj [("username", JValue.str "standard_user")], ld2, b2))
    ∧ (pyEndsWith "login_test_data.json" ".json" = true →
       TestDataLoader.get_test_case_data
      [("data/login_test_data.json", FileContent.valid
         [("test_cases", JValue.obj
            [("valid_login", JValue.obj [("username", JValue.str "standard_user")])])])]
      ⟨"data", [("login_test_data.json",
         [("test_cases", JValue.obj
            [("valid_login", JValue.obj [("username", JValue.str "standard_user")])])])]⟩
      "login_test_data.json" "valid_login"
      = .ok (JValue.obj [("username", JValue.str "standard_user")],
          ⟨"data", [("login_test_data.json",
            [("test_cases", JValue.obj
               [("valid_login", JValue.obj [("username", JValue.str "standard_user")])])])]⟩,
          false)) :=
  cache_stability_amended
    [("data/login_test_data.json", FileContent.valid
       [("test_cases", JValue.obj
          [("valid_login", JValue.obj [("username", JValue.str "standard_user")])])])]
    ⟨"data", []⟩ "login_test_data.json" "valid_login"
    (JValue.obj [("username", JValue.str "standard_user")])
    ⟨"data", [("login_test_data.json",
       [("test_cases", JValue.obj
          [("valid_login", JValue.obj [("username", JValue.str "standard_user")])])])]⟩
    true rfl

/-- C6: `get_environment_data` performs a shallow per-key merge of the
named environment onto the default environment, the named environment
winning per key; resolving `default` returns the default environment
unchanged. -/
theorem environment_data_merge (fs : FileSystem) (ld : TestDataLoader.State)
    (filename : String) (test_env_var : Option String) (env_name : String)
    (data : PyDict) (ld1 : TestDataLoader.State) (b : Bool)
    (envs dflt ov : PyDict)
    (hload : TestDataLoader.load_test_data fs ld filename true = .ok (data, ld1, b))
    (henvs : Py.lookup data "environments" = some (.obj envs))
    (hdflt : Py.lookup envs "default" = some (.obj dflt))
    (hov : Py.lookup envs env_name = some (.obj ov))
    (hne : env_name ≠ "default") :
    TestDataLoader.get_environment_data fs ld filename (some env_name) test_env_var
      = .ok (Py.updateD dflt ov, ld1, b)
    ∧ (∀ key, Py.lookup (Py.updateD dflt ov) key
        = (Py.lookupLast ov key).orElse (fun _ => Py.lookup dflt key))
    ∧ TestDataLoader.get_environment_data fs ld filename (some "default") test_env_var
      = .ok (dflt, ld1, b) := by
  refine ⟨?_, fun key => Py.lookup_updateD dflt ov key, ?_⟩
  · simp [TestDataLoader.get_environment_data, hload, Py.getD, henvs, hdflt, hov,
      JValue.toDict, Py.hasKey, hne]
  · simp [TestDataLoader.get_environment_data, hload, Py.getD, henvs, hdflt,
      JValue.toDict, Py.hasKey]

/-- C6, witness at the specification example: default={a:1,b:2} and
staging={b:3} resolve to {a:1,b:3} for staging and {a:1,b:2} for
default. -/
theorem environment_data_merge_witness :
    TestDataLoader.get_environment_data
      [("data/env_data.json", FileContent.valid
         [("environments", JValue.obj
            [("default", JValue.obj [("a", JValue.num 1), ("b", JValue.num 2)]),
             ("staging", JValue.obj [("b", JValue.num 3)])])])]
      ⟨"data", []⟩ "env_data.json" (some "staging") none
      = .ok ([("a", JValue.num 1), ("b", JValue.num 3)],
          ⟨"data", [("env_data.json",
            [("environments", JValue.obj
               [("default", JValue.obj [("a", JValue.num 1), ("b", JValue.num 2)]),
                ("staging", JValue.obj [("b", JValue.num 3)])])])]⟩, true)
    ∧ TestDataLoader.get_environment_data
      [("data/env_data.json", FileContent.valid
         [("environments", JValue.obj
            [("default", JValue.obj [("a", JValue.num 1), ("b", JValue.num 2)]),
             ("staging", JValue.obj [("b", JValue.num 3)])])])]
      ⟨"data", []⟩ "env_data.json" (some "default") none
      = .ok ([("a", JValue.num 1), ("b", JValue.num 2)],
          ⟨"data", [("env_data.json",
            [("environments", JValue.obj
               [("default", JValue.obj [("a", JValue.num 1), ("b", JValue.num 2)]),
                ("staging", JValue.obj [("b", JValue.num 3)])])])]⟩, true) :=
  ⟨(environment_data_merge
      [("data/env_data.json", FileContent.valid
         [("environments", JValue.obj
            [("default", JValue.obj [("a", JValue.num 1), ("b", JValue.num 2)]),
             ("staging", JValue.obj [("b", JValue.num 3)])])])]
      ⟨"data", []⟩ "env_data.json" none "staging"
      [("environments", JValue.obj
         [("default", JValue.obj [("a", JValue.num 1), ("b", JValue.num 2)]),
          ("staging", JValue.obj [("b", JValue.num 3)])])]
      ⟨"data", [("env_data.json",
         [("environments", JValue.obj
            [("default", JValue.obj [("a", JValue.num 1), ("b", JValue.num 2)]),
             ("staging", JValue.obj [("b", JValue.num 3)])])])]⟩ true
      [("default", JValue.obj [("a", JValue.num 1), ("b", JValue.num 2)]),
       ("staging", JValue.obj [("b", JValue.num 3)])]
      [("a", JValue.num 1), ("b", JValue.num 2)]
      [("b", JValue.num 3)]
      rfl rfl rfl rfl (by decide)).1,
   (environment_data_merge
      [("data/env_data.json", FileContent.valid
         [("environments", JValue.obj
            [("default", JValue.obj [("a", JValue.num 1), ("b", JValue.num 2)]),
             ("staging", JValue.obj [("b", JValue.num 3)])])])]
      ⟨"data", []⟩ "env_data.json" none "staging"
      [("environments", JValue.obj
         [("default", JValue.obj [("a", JValue.num 1), ("b", JValue.num 2)]),
          ("staging", JValue.obj [("b", JValue.num 3)])])]
      ⟨"data", [("env_data.json",
         [("environments", JValue.obj
            [("default", JValue.obj [("a", JValue.num 1), ("b", JValue.num 2)]),
             ("staging", JValue.obj [("b", JValue.num 3)])])])]⟩ true
      [("default", JValue.obj [("a", JValue.num 1), ("b", JValue.num 2)]),
       ("staging", JValue.obj [("b", JValue.num 3)])]
      [("a", JValue.num 1), ("b", JValue.num 2)]
      [("b", JValue.num 3)]
      rfl rfl rfl rfl (by decide)).2.2⟩

/-- C7, counterexample: an Android configuration declaring a non-empty
package and activity whose capabilities and environment sections do not
touch `automationName`, but whose `android_capabilities` sub-map (inside
the environment section) binds `appPackage`.  The sub-map is applied last,
so the returned `appPackage` is not the declared package — the claim as
stated fails. -/
theorem android_capability_assembly_cex :
    Py.lookup
      (ConfigLoader.get_all_capabilities
        [("package_name", JValue.str "com.example.app"),
         ("activity_name", JValue.str ".MainActivity")]
        [("android_capabilities", JValue.obj [("appPackage", JValue.str "com.other.app")])]
        [] "Android") "appPackage"
      = some (JValue.str "com.other.app")
    ∧ (some (JValue.str "com.other.app") : Option JValue)
        ≠ some (JValue.str "com.example.app")
    ∧ Py.lookup
        [("android_capabilities", JValue.obj [("appPackage", JValue.str "com.other.app")])]
        "automation_name" = none := by
  refine ⟨rfl, by simp, rfl⟩

/-- C7, amended: for an Android configuration declaring a non-empty
package and activity, with `automationName` not overridden by the
capabilities or environment sections and — additionally to the original
claim — with the `android_capabilities` sub-map not binding `appPackage`
or `appActivity`, the returned capability set carries the declared
package, the declared activity and `automationName = UiAutomator2`. -/
theorem android_capability_assembly
    (app_config env_config caps_config : PyDict) (pkg act : String)
    (acaps : List (String × JValue))
    (hpkg : Py.lookup app_config "package_name" = some (JValue.str pkg))
    (hpkg0 : pkg ≠ "")
    (hact : Py.lookup app_config "activity_name" = some (JValue.str act))
    (hact0 : act ≠ "")
    (hauto_caps : Py.lookupLast caps_config "automationName" = none)
    (hauto_env : Py.lookup env_config "automation_name" = none)
    (hacaps : (Py.getD env_config "android_capabilities" (JValue.obj [])).toDict = acaps)
    (hacaps_auto : "automationName" ∉ acaps.map Prod.fst)
    (hacaps_pkg : "appPackage" ∉ acaps.map Prod.fst)
    (hacaps_act : "appActivity" ∉ acaps.map Prod.fst) :
    Py.lookup (ConfigLoader.get_all_capabilities app_config env_config caps_config
        "Android") "appPackage" = some (JValue.str pkg)
    ∧ Py.lookup (ConfigLoader.get_all_capabilities app_config env_config caps_config
        "Android") "appActivity" = some (JValue.str act)
    ∧ Py.lookup (ConfigLoader.get_all_capabilities app_config env_config caps_config
        "Android") "automationName" = some (JValue.str "UiAutomator2") := by
  have hand : pyLower "Android" = "android" := rfl
  have htp : (Py.getD app_config "package_name" JValue.null).truthy = true := by
    simp [Py.getD, hpkg, JValue.truthy, hpkg0]
  have hta : (Py.getD app_config "activity_name" JValue.null).truthy = true := by
    simp [Py.getD, hact, JValue.truthy, hact0]
  have hpval : Py.getD app_config "package_name" JValue.null = JValue.str pkg := by
    simp [Py.getD, hpkg]
  have haval : Py.getD app_config "activity_name" JValue.null = JValue.str act := by
    simp [Py.getD, hact]
  have hauto : Py.getD env_config "automation_name" (JValue.str "UiAutomator2")
      = JValue.str "UiAutomator2" := by
    simp [Py.getD, hauto_env]
  refine ⟨?_, ?_, ?_⟩
  · simp only [ConfigLoader.get_all_capabilities, hand, if_pos, if_true, htp, hta]
    rw [hacaps, Py.lookup_updateD, Py.lookupLast_eq_none_of_not_mem _ _ hacaps_pkg]
    simp only [Option.orElse]
    rw [Py.lookup_setKey_ne _ _ _ _ (by decide : ("appPackage" : String) ≠ "appActivity"),
      Py.lookup_setKey_self, hpval]
  · simp only [ConfigLoader.get_all_capabilities, hand, if_pos, if_true, htp, hta]
    rw [hacaps, Py.lookup_updateD, Py.lookupLast_eq_none_of_not_mem _ _ hacaps_act]
    simp only [Option.orElse]
    rw [Py.lookup_setKey_self, haval]
  · simp only [ConfigLoader.get_all_capabilities, hand, if_pos, if_true, htp, hta]
    rw [hacaps, Py.lookup_updateD, Py.lookupLast_eq_none_of_not_mem _ _ hacaps_auto]
    simp only [Option.orElse]
    rw [Py.lookup_setKey_ne _ _ _ _ (by decide : ("automationName" : String) ≠ "appActivity"),
      Py.lookup_setKey_ne _ _ _ _ (by decide : ("automationName" : String) ≠ "appPackage"),
      Py.lookup_setKey_self, hauto]

/-- C7, witness for the amended theorem at a plain Android configuration
with no overrides. -/
theorem android_capability_assembly_witness :
    Py.lookup (ConfigLoader.get_all_capabilities
        [("package_name", JValue.str "com.example.app"),
         ("activity_name", JValue.str ".MainActivity")] [] [] "Android")
        "appPackage" = some (JValue.str "com.example.app")
    ∧ Py.lookup (ConfigLoader.get_all_capabilities
        [("package_name", JValue.str "com.example.app"),
         ("activity_name", JValue.str ".MainActivity")] [] [] "Android")
        "appActivity" = some (JValue.str ".MainActivity")
    ∧ Py.lookup (ConfigLoader.get_all_capabilities
        [("package_name", JValue.str "com.example.app"),
         ("activity_name", JValue.str ".MainActivity")] [] [] "Android")
        "automationName" = some (JValue.str "UiAutomator2") :=
  android_capability_assembly
    [("package_name", JValue.str "com.example.app"),
     ("activity_name", JValue.str ".MainActivity")] [] []
    "com.example.app" ".MainActivity" []
    rfl (by decide) rfl (by decide) rfl rfl rfl (by simp) (by simp) (by simp)

/-- C8: `scroll_to_element` is a bounded retry loop.  When the presence
check (2-second timeout) fails at the state reached after each of the
first `max_swipes` swipes, the loop returns `none` after exactly
`max_swipes` directional swipes, each applied to the then-current state
(so sized from the then-current window dimensions); when the presence
check first succeeds after `i < max_swipes` swipes, the loop stops there
and returns the element that `find_element` yields on that state. -/
theorem scroll_to_element_policy {σ : Type} (d : DriverModel σ) (s : σ) (wu : WaitUtils)
    (loc : Locator) (direction : String) (max_swipes : Nat) :
    ((∀ k, k < max_swipes →
        AppiumWrapper.is_element_present d ((AppiumWrapper.scrollStep d direction)^[k] s)
          wu loc (some 2) = .ok false) →
      AppiumWrapper.scroll_to_element d s wu loc direction max_swipes
        = .ok (none, (AppiumWrapper.scrollStep d direction)^[max_swipes] s))
    ∧ (∀ i element, i < max_swipes →
        (∀ k, k < i →
          AppiumWrapper.is_element_present d ((AppiumWrapper.scrollStep d direction)^[k] s)
            wu loc (some 2) = .ok false) →
        AppiumWrapper.is_element_present d ((AppiumWrapper.scrollStep d direction)^[i] s)
          wu loc (some 2) = .ok true →
        AppiumWrapper.find_element d ((AppiumWrapper.scrollStep d direction)^[i] s) wu loc
          = .ok element →
        AppiumWrapper.scroll_to_element d s wu loc direction max_swipes
          = .ok (some element, (AppiumWrapper.scrollStep d direction)^[i] s)) :=
  ⟨fun h => scroll_to_element_not_found d wu loc direction max_swipes s h,
   fun i element h1 h2 h3 h4 =>
     scroll_to_element_found d wu loc direction i max_swipes s element h1 h2 h3 h4⟩

/-- C8, witness: the never-present driver exhausts its five attempts and
returns `none`; the immediately-present driver returns the element on the
first attempt. -/
theorem scroll_to_element_policy_witness :
    AppiumWrapper.scroll_to_element timeoutDriver () {} ("id", "item") "down" 5
      = .ok (none, ())
    ∧ AppiumWrapper.scroll_to_element presentDriver () {} ("id", "item") "down" 5
      = .ok (some 1, ()) :=
  ⟨(scroll_to_element_policy timeoutDriver () {} ("id", "item") "down" 5).1 (fun k _ => rfl),
   (scroll_to_element_policy presentDriver () {} ("id", "item") "down" 5).2 0 1 (by omega)
     (fun k hk => absurd hk (Nat.not_lt_zero k)) rfl rfl⟩

/-- C9: the `timeout or self.timeout` combination in every `WaitUtils`
wait method replaces a falsy per-call timeout — `0` as well as `None` —
by the instance default (30 by default), so an explicit timeout of 0
never produces a zero deadline: the call behaves exactly as a call with
no timeout override and may wait up to the full instance default. -/
theorem wait_zero_timeout_uses_default {σ : Type} (d : DriverModel σ) (s : σ)
    (wu : WaitUtils) (loc : Locator) (text : String) (cond_id element : Nat) :
    pyOrTimeout (some 0) wu.timeout = wu.timeout
    ∧ pyOrTimeout none wu.timeout = wu.timeout
    ∧ ({} : WaitUtils).timeout = 30
    ∧ WaitUtils.wait_for_element_present d s wu loc (some 0)
        = catchTimeout (d.wait_until s (.presence loc) wu.timeout)
    ∧ WaitUtils.wait_for_element_present d s wu loc (some 0)
        = WaitUtils.wait_for_element_present d s wu loc none
    ∧ WaitUtils.wait_for_element_visible d s wu loc (some 0)
        = WaitUtils.wait_for_element_visible d s wu loc none
    ∧ WaitUtils.wait_for_element_clickable d s wu loc (some 0)
        = WaitUtils.wait_for_element_clickable d s wu loc none
    ∧ WaitUtils.wait_for_element_not_present d s wu loc (some 0)
        = WaitUtils.wait_for_element_not_present d s wu loc none
    ∧ WaitUtils.wait_for_element_not_visible d s wu loc (some 0)
        = WaitUtils.wait_for_element_not_visible d s wu loc none
    ∧ WaitUtils.wait_for_text_in_element d s wu loc text (some 0)
        = WaitUtils.wait_for_text_in_element d s wu loc text none
    ∧ WaitUtils.wait_for_custom_condition d s wu cond_id (some 0)
        = WaitUtils.wait_for_custom_condition d s wu cond_id none
    ∧ WaitUtils.wait_for_staleness d s wu element (some 0)
        = WaitUtils.wait_for_staleness d s wu element none :=
  ⟨rfl, rfl, rfl, rfl, rfl, rfl, rfl, rfl, rfl, rfl, rfl, rfl⟩

/-- C10: the session-scoped `config` fixture fails for every setting of
the two environment variables it reads: the `ConfigLoader` call binds a
`device` keyword that `__init__` does not accept (its keyword parameters
are only `config_path` and `platform`), raising `TypeError` before the
body runs; moreover `get_device`, which the fixture would go on to call,
is not among the methods `ConfigLoader` defines.  Session configuration
can therefore never complete. -/
theorem config_fixture_always_fails (appium_platform appium_device : Option String) :
    config_fixture appium_platform appium_device
      = .error (.typeError "got an unexpected keyword argument device")
    ∧ ConfigLoader.initKeywordParams.contains "device" = false
    ∧ ConfigLoader.methodNames.contains "get_device" = false :=
  ⟨rfl, rfl, rfl⟩
